import Mathlib

/-!
Verification of the health-decoder image-analysis pipeline against its
specification.  The Python source is shallowly embedded: pure arithmetic is
translated to exact rational arithmetic over `ℚ`, machine integers to `ℤ`,
`None`-able results to `Option`.  External OpenCV computations (grayscale
conversion, Laplacian variance, per-region pixel statistics, font glyph
rasterisation) are abstracted as inputs of the model, quantified universally
in the theorems.
-/

namespace HealthDecoder

/-- A bounding box `(x1, y1, x2, y2)` in integer pixel coordinates, as the
Python tuples used throughout `roi.py` and `pipeline.py`. -/
structure Box where
  x1 : ℤ
  y1 : ℤ
  x2 : ℤ
  y2 : ℤ
deriving Repr, DecidableEq

/-- Model of `RiskComponents`: the dict returned by `risk_from_rois`, which always has
exactly the three keys `eyes`, `lips`, `skin` (values in `ℚ`, modelling the
Python floats exactly). -/
structure RiskComponents where
  eyes : ℚ
  lips : ℚ
  skin : ℚ
deriving Repr, DecidableEq

/-- Model of `np.clip(v, 0, 1)` from `scoring.py`: clamp a value into `[0, 1]`. -/
def clip01 (v : ℚ) : ℚ := max 0 (min v 1)

/-- Embedding of `risk_from_rois` (src/health_decoder/domain/scoring.py).
The Python function receives three grayscale pixel arrays and first computes
`(mean, std)` of each via `_roi_stat`; the numpy statistics are abstracted
here as the six rational inputs (quantifying over all of them covers every
possible pixel array, including degenerate all-black / all-white regions,
for which `mean ∈ [0,255]` and `std = 0`). -/
def risk_from_rois (e_mean e_std l_mean l_std s_mean s_std : ℚ) : RiskComponents :=
  { eyes := clip01 ((110 - e_mean) / 110) * 0.6 + clip01 ((25 - e_std) / 25) * 0.4
  , lips := clip01 ((115 - l_mean) / 115) * 0.7 + clip01 ((22 - l_std) / 22) * 0.3
  , skin := clip01 ((120 - s_mean) / 120) * 0.6 + clip01 ((20 - s_std) / 20) * 0.4 }

/-- Python 3 `round` on an exact value: round to nearest, ties to even
(banker's rounding), as used in `wellness_score`'s `int(round(...))`. -/
def pyRound (q : ℚ) : ℤ :=
  if q - (⌊q⌋ : ℚ) < 1/2 then ⌊q⌋
  else if 1/2 < q - (⌊q⌋ : ℚ) then ⌊q⌋ + 1
  else if ⌊q⌋ % 2 = 0 then ⌊q⌋ else ⌊q⌋ + 1

/-- The aggregate risk `agg = 0.4*eyes + 0.35*lips + 0.25*skin` computed in
`wellness_score`. -/
def wellness_agg (r : RiskComponents) : ℚ :=
  0.4 * r.eyes + 0.35 * r.lips + 0.25 * r.skin

/-- The category branch of `wellness_score`. -/
def score_category (score : ℤ) : String :=
  if score < 45 then "Low" else if score < 70 then "Medium" else "Good"

/-- The confidence branch of `wellness_score`. -/
def score_confidence (score : ℤ) : String :=
  if score < 40 ∨ 80 < score then "High" else "Medium"

def lipReason : String := "Lip region suggests dryness-like cues."
def eyeReason : String := "Eye region suggests fatigue-like cues."
def skinReason : String := "Skin region suggests lower vitality-like cues."
def balancedReason : String :=
  "Overall signals look balanced under current capture conditions."

/-- The reasons block of `wellness_score`: appends the lips, eyes and skin
sentences (in that source order) for each risk above `0.55`, falling back to
a single balanced-signals sentence when the list would be empty. -/
def wellness_reasons (r : RiskComponents) : List String :=
  let reasons :=
    (if 0.55 < r.lips then [lipReason] else []) ++
    (if 0.55 < r.eyes then [eyeReason] else []) ++
    (if 0.55 < r.skin then [skinReason] else [])
  if reasons = [] then [balancedReason] else reasons

/-- Embedding of `wellness_score` (src/health_decoder/domain/scoring.py):
returns `(score, category, confidence, reasons)`. -/
def wellness_score (r : RiskComponents) : ℤ × String × String × List String :=
  let score := pyRound (100 * (1 - wellness_agg r))
  (score, score_category score, score_confidence score, wellness_reasons r)

/- Helper lemmas about `clip01` and `pyRound`. -/

lemma clip01_nonneg (v : ℚ) : 0 ≤ clip01 v := le_max_left 0 _

lemma clip01_le_one (v : ℚ) : clip01 v ≤ 1 :=
  max_le (by norm_num) (min_le_right v 1)

lemma pyRound_nonneg {q : ℚ} (h : 0 ≤ q) : 0 ≤ pyRound q := by
  have hf : 0 ≤ ⌊q⌋ := Int.floor_nonneg.mpr h
  unfold pyRound
  split_ifs <;> omega

lemma pyRound_le_hundred {q : ℚ} (h : q ≤ 100) : pyRound q ≤ 100 := by
  have hf : ⌊q⌋ ≤ 100 := by
    have := Int.floor_le_floor h
    simpa using this
  have hfl : (⌊q⌋ : ℚ) ≤ q := Int.floor_le q
  unfold pyRound
  split_ifs with h1 h2 h3
  · exact hf
  · -- here `1/2 < q - ⌊q⌋`, so `⌊q⌋ < 99.5`, hence `⌊q⌋ + 1 ≤ 100`
    have : (⌊q⌋ : ℚ) < 100 - 1/2 := by linarith
    have : (⌊q⌋ : ℚ) < (100 : ℚ) := by linarith
    have : ⌊q⌋ < 100 := by exact_mod_cast this
    omega
  · exact hf
  · -- the tie case: `q - ⌊q⌋ = 1/2` exactly
    have heq : q - (⌊q⌋ : ℚ) = 1/2 := le_antisymm (not_lt.mp h2) (not_lt.mp h1)
    have : (⌊q⌋ : ℚ) ≤ 100 - 1/2 := by linarith
    have : (⌊q⌋ : ℚ) < (100 : ℚ) := by linarith
    have : ⌊q⌋ < 100 := by exact_mod_cast this
    omega

/-- C4: for risks in `[0,1]` the Aggregator computes
`score = round(100 * (1 - (0.4*eyes + 0.35*lips + 0.25*skin)))`, the score is
an integer in `[0, 100]`, and the category boundaries are exact:
44 → Low, 45 → Medium, 69 → Medium, 70 → Good. -/
theorem c4_aggregate_score_bounds (e l s : ℚ)
    (he0 : 0 ≤ e) (he1 : e ≤ 1) (hl0 : 0 ≤ l) (hl1 : l ≤ 1)
    (hs0 : 0 ≤ s) (hs1 : s ≤ 1) :
    (wellness_score ⟨e, l, s⟩).1 =
        pyRound (100 * (1 - (0.4 * e + 0.35 * l + 0.25 * s))) ∧
    0 ≤ (wellness_score ⟨e, l, s⟩).1 ∧ (wellness_score ⟨e, l, s⟩).1 ≤ 100 ∧
    ((wellness_score ⟨e, l, s⟩).1 = 44 → (wellness_score ⟨e, l, s⟩).2.1 = "Low") ∧
    ((wellness_score ⟨e, l, s⟩).1 = 45 → (wellness_score ⟨e, l, s⟩).2.1 = "Medium") ∧
    ((wellness_score ⟨e, l, s⟩).1 = 69 → (wellness_score ⟨e, l, s⟩).2.1 = "Medium") ∧
    ((wellness_score ⟨e, l, s⟩).1 = 70 → (wellness_score ⟨e, l, s⟩).2.1 = "Good") := by
  have hagg : wellness_agg ⟨e, l, s⟩ = 0.4 * e + 0.35 * l + 0.25 * s := rfl
  have hscore : (wellness_score ⟨e, l, s⟩).1 =
      pyRound (100 * (1 - wellness_agg ⟨e, l, s⟩)) := rfl
  have hcat : (wellness_score ⟨e, l, s⟩).2.1 =
      score_category (wellness_score ⟨e, l, s⟩).1 := rfl
  have h0 : 0 ≤ 100 * (1 - wellness_agg ⟨e, l, s⟩) := by rw [hagg]; linarith
  have h100 : 100 * (1 - wellness_agg ⟨e, l, s⟩) ≤ 100 := by rw [hagg]; linarith
  refine ⟨by rw [hscore, hagg], ?_, ?_, ?_, ?_, ?_, ?_⟩
  · rw [hscore]; exact pyRound_nonneg h0
  · rw [hscore]; exact pyRound_le_hundred h100
  · intro h44; rw [hcat, h44]; rfl
  · intro h45; rw [hcat, h45]; rfl
  · intro h69; rw [hcat, h69]; rfl
  · intro h70; rw [hcat, h70]; rfl

theorem c4_aggregate_score_bounds_witness :
    (wellness_score ⟨1/2, 1/2, 1/2⟩).1 =
        pyRound (100 * (1 - (0.4 * (1/2) + 0.35 * (1/2) + 0.25 * (1/2)))) ∧
    0 ≤ (wellness_score ⟨1/2, 1/2, 1/2⟩).1 ∧
    (wellness_score ⟨1/2, 1/2, 1/2⟩).1 ≤ 100 ∧
    ((wellness_score ⟨1/2, 1/2, 1/2⟩).1 = 44 →
      (wellness_score ⟨1/2, 1/2, 1/2⟩).2.1 = "Low") ∧
    ((wellness_score ⟨1/2, 1/2, 1/2⟩).1 = 45 →
      (wellness_score ⟨1/2, 1/2, 1/2⟩).2.1 = "Medium") ∧
    ((wellness_score ⟨1/2, 1/2, 1/2⟩).1 = 69 →
      (wellness_score ⟨1/2, 1/2, 1/2⟩).2.1 = "Medium") ∧
    ((wellness_score ⟨1/2, 1/2, 1/2⟩).1 = 70 →
      (wellness_score ⟨1/2, 1/2, 1/2⟩).2.1 = "Good") :=
  c4_aggregate_score_bounds (1/2) (1/2) (1/2)
    (by norm_num) (by norm_num) (by norm_num) (by norm_num) (by norm_num) (by norm_num)

/-- C5: the Aggregator's confidence is "High" exactly when `score < 40` or
`score > 80`, "Medium" otherwise, and "Low" is never produced. -/
theorem c5_confidence_rule (r : RiskComponents) :
    ((wellness_score r).2.2.1 = "High" ↔
      ((wellness_score r).1 < 40 ∨ 80 < (wellness_score r).1)) ∧
    ((wellness_score r).2.2.1 = "Medium" ↔
      ¬ ((wellness_score r).1 < 40 ∨ 80 < (wellness_score r).1)) ∧
    (wellness_score r).2.2.1 ≠ "Low" := by
  have hconf : (wellness_score r).2.2.1 =
      score_confidence (wellness_score r).1 := rfl
  rw [hconf]
  generalize (wellness_score r).1 = n
  unfold score_confidence
  split_ifs with hc
  · refine ⟨by simp [hc], ?_, by decide⟩
    constructor
    · intro h; exact absurd h (by decide)
    · intro h; exact absurd hc h
  · refine ⟨?_, by simp [hc], by decide⟩
    constructor
    · intro h; exact absurd h.symm (by decide)
    · intro h; exact absurd h hc

theorem c5_confidence_rule_witness :
    ((wellness_score ⟨0, 0, 0⟩).2.2.1 = "High" ↔
      ((wellness_score ⟨0, 0, 0⟩).1 < 40 ∨ 80 < (wellness_score ⟨0, 0, 0⟩).1)) ∧
    ((wellness_score ⟨0, 0, 0⟩).2.2.1 = "Medium" ↔
      ¬ ((wellness_score ⟨0, 0, 0⟩).1 < 40 ∨ 80 < (wellness_score ⟨0, 0, 0⟩).1)) ∧
    (wellness_score ⟨0, 0, 0⟩).2.2.1 ≠ "Low" :=
  c5_confidence_rule ⟨0, 0, 0⟩

/-- C6: `risk_from_rois` computes exactly the three weighted clamped
combinations of the spec (with `clamp(v) = max(0, min(1, v))`), and each
returned risk lies in `[0,1]` for any statistics, hence for any input pixel
array including degenerate all-black or all-white regions. -/
theorem c6_risk_formula_and_range (e_mean e_std l_mean l_std s_mean s_std : ℚ) :
    (risk_from_rois e_mean e_std l_mean l_std s_mean s_std).eyes =
        0.6 * max 0 (min 1 ((110 - e_mean) / 110)) +
        0.4 * max 0 (min 1 ((25 - e_std) / 25)) ∧
    (risk_from_rois e_mean e_std l_mean l_std s_mean s_std).lips =
        0.7 * max 0 (min 1 ((115 - l_mean) / 115)) +
        0.3 * max 0 (min 1 ((22 - l_std) / 22)) ∧
    (risk_from_rois e_mean e_std l_mean l_std s_mean s_std).skin =
        0.6 * max 0 (min 1 ((120 - s_mean) / 120)) +
        0.4 * max 0 (min 1 ((20 - s_std) / 20)) ∧
    (0 ≤ (risk_from_rois e_mean e_std l_mean l_std s_mean s_std).eyes ∧
      (risk_from_rois e_mean e_std l_mean l_std s_mean s_std).eyes ≤ 1) ∧
    (0 ≤ (risk_from_rois e_mean e_std l_mean l_std s_mean s_std).lips ∧
      (risk_from_rois e_mean e_std l_mean l_std s_mean s_std).lips ≤ 1) ∧
    (0 ≤ (risk_from_rois e_mean e_std l_mean l_std s_mean s_std).skin ∧
      (risk_from_rois e_mean e_std l_mean l_std s_mean s_std).skin ≤ 1) := by
  refine ⟨?_, ?_, ?_, ?_, ?_, ?_⟩
  · show clip01 ((110 - e_mean) / 110) * 0.6 + clip01 ((25 - e_std) / 25) * 0.4 = _
    unfold clip01
    rw [min_comm ((110 - e_mean) / 110) 1, min_comm ((25 - e_std) / 25) 1]
    ring
  · show clip01 ((115 - l_mean) / 115) * 0.7 + clip01 ((22 - l_std) / 22) * 0.3 = _
    unfold clip01
    rw [min_comm ((115 - l_mean) / 115) 1, min_comm ((22 - l_std) / 22) 1]
    ring
  · show clip01 ((120 - s_mean) / 120) * 0.6 + clip01 ((20 - s_std) / 20) * 0.4 = _
    unfold clip01
    rw [min_comm ((120 - s_mean) / 120) 1, min_comm ((20 - s_std) / 20) 1]
    ring
  · show 0 ≤ clip01 ((110 - e_mean) / 110) * 0.6 + clip01 ((25 - e_std) / 25) * 0.4 ∧
        clip01 ((110 - e_mean) / 110) * 0.6 + clip01 ((25 - e_std) / 25) * 0.4 ≤ 1
    have a0 := clip01_nonneg ((110 - e_mean) / 110)
    have a1 := clip01_le_one ((110 - e_mean) / 110)
    have b0 := clip01_nonneg ((25 - e_std) / 25)
    have b1 := clip01_le_one ((25 - e_std) / 25)
    constructor <;> linarith
  · show 0 ≤ clip01 ((115 - l_mean) / 115) * 0.7 + clip01 ((22 - l_std) / 22) * 0.3 ∧
        clip01 ((115 - l_mean) / 115) * 0.7 + clip01 ((22 - l_std) / 22) * 0.3 ≤ 1
    have a0 := clip01_nonneg ((115 - l_mean) / 115)
    have a1 := clip01_le_one ((115 - l_mean) / 115)
    have b0 := clip01_nonneg ((22 - l_std) / 22)
    have b1 := clip01_le_one ((22 - l_std) / 22)
    constructor <;> linarith
  · show 0 ≤ clip01 ((120 - s_mean) / 120) * 0.6 + clip01 ((20 - s_std) / 20) * 0.4 ∧
        clip01 ((120 - s_mean) / 120) * 0.6 + clip01 ((20 - s_std) / 20) * 0.4 ≤ 1
    have a0 := clip01_nonneg ((120 - s_mean) / 120)
    have a1 := clip01_le_one ((120 - s_mean) / 120)
    have b0 := clip01_nonneg ((20 - s_std) / 20)
    have b1 := clip01_le_one ((20 - s_std) / 20)
    constructor <;> linarith

/-- C3 (amended): the Aggregator's reasons list contains each region's fixed
sentence exactly when that region's risk exceeds `0.55`, in the deterministic
order lips, eyes, skin (the source appends the lip sentence first), and is
exactly the single balanced-signals fallback sentence when no region exceeds
the threshold. -/
theorem c3_reasons_content_and_order (r : RiskComponents) :
    (lipReason ∈ (wellness_score r).2.2.2 ↔ 0.55 < r.lips) ∧
    (eyeReason ∈ (wellness_score r).2.2.2 ↔ 0.55 < r.eyes) ∧
    (skinReason ∈ (wellness_score r).2.2.2 ↔ 0.55 < r.skin) ∧
    ((0.55 < r.lips ∨ 0.55 < r.eyes ∨ 0.55 < r.skin) →
      (wellness_score r).2.2.2 =
        (if 0.55 < r.lips then [lipReason] else []) ++
        (if 0.55 < r.eyes then [eyeReason] else []) ++
        (if 0.55 < r.skin then [skinReason] else [])) ∧
    (¬ (0.55 < r.lips ∨ 0.55 < r.eyes ∨ 0.55 < r.skin) →
      (wellness_score r).2.2.2 = [balancedReason]) := by
  have hrs : (wellness_score r).2.2.2 = wellness_reasons r := rfl
  rw [hrs]
  by_cases h1 : 0.55 < r.lips <;> by_cases h2 : 0.55 < r.eyes <;>
    by_cases h3 : 0.55 < r.skin <;>
    simp [wellness_reasons, h1, h2, h3, lipReason, eyeReason, skinReason,
      balancedReason]

theorem c3_reasons_content_and_order_witness :
    (lipReason ∈ (wellness_score ⟨1, 1, 0⟩).2.2.2 ↔ (0.55:ℚ) < 1) ∧
    (eyeReason ∈ (wellness_score ⟨1, 1, 0⟩).2.2.2 ↔ (0.55:ℚ) < 1) ∧
    (skinReason ∈ (wellness_score ⟨1, 1, 0⟩).2.2.2 ↔ (0.55:ℚ) < 0) ∧
    (((0.55:ℚ) < 1 ∨ (0.55:ℚ) < 1 ∨ (0.55:ℚ) < 0) →
      (wellness_score ⟨1, 1, 0⟩).2.2.2 =
        (if (0.55:ℚ) < 1 then [lipReason] else []) ++
        (if (0.55:ℚ) < 1 then [eyeReason] else []) ++
        (if (0.55:ℚ) < 0 then [skinReason] else [])) ∧
    (¬ ((0.55:ℚ) < 1 ∨ (0.55:ℚ) < 1 ∨ (0.55:ℚ) < 0) →
      (wellness_score ⟨1, 1, 0⟩).2.2.2 = [balancedReason]) :=
  c3_reasons_content_and_order ⟨1, 1, 0⟩

/-- C3 counterexample: with all three risks above the threshold the code
produces the sentences in the order lips, eyes, skin, not the eyes, lips,
skin order the claim states. -/
theorem c3_counterexample :
    (wellness_score ⟨1, 1, 1⟩).2.2.2 = [lipReason, eyeReason, skinReason] ∧
    (wellness_score ⟨1, 1, 1⟩).2.2.2 ≠ [eyeReason, lipReason, skinReason] := by
  have h : (wellness_score ⟨1, 1, 1⟩).2.2.2 = [lipReason, eyeReason, skinReason] := by
    show wellness_reasons ⟨1, 1, 1⟩ = _
    norm_num [wellness_reasons]
    intro h'
    exact (List.cons_ne_nil _ _ h').elim
  refine ⟨h, ?_⟩
  rw [h]
  decide

/-- Python `int(x)` truncation toward zero of the exact quotient `a / b`
(for `b > 0`), used to model expressions like `int(0.15 * fw)` in `roi.py`
and `pipeline.py` as `itrunc (15 * fw) 100` (the float factors `0.15` etc.
are modelled by their exact decimal values; for the coordinate magnitudes
involved the double-precision product truncates identically). -/
def itrunc (a : ℤ) (b : ℕ) : ℤ :=
  if a < 0 then -(((-a).toNat / b : ℕ) : ℤ)
  else ((a.toNat / b : ℕ) : ℤ)

/-- Embedding of `clamp_box` (src/health_decoder/pipeline/roi.py): clamp all
four coordinates into `[0, dim-1]`, then if the box is inverted or empty force
`x2 = min(w-1, x1+1)` (and likewise for `y2`). -/
def clamp_box (x1 y1 x2 y2 w h : ℤ) : Box :=
  let x1c := max 0 (min x1 (w - 1))
  let x2c := max 0 (min x2 (w - 1))
  let y1c := max 0 (min y1 (h - 1))
  let y2c := max 0 (min y2 (h - 1))
  { x1 := x1c
  , y1 := y1c
  , x2 := if x2c ≤ x1c then min (w - 1) (x1c + 1) else x2c
  , y2 := if y2c ≤ y1c then min (h - 1) (y1c + 1) else y2c }

/-- Embedding of `ROIBoxes` from src/health_decoder/pipeline/roi.py. -/
structure ROIBoxes where
  face : Box
  eyes : Box
  lips : Box
  skin : Box
deriving Repr, DecidableEq

/-- Embedding of `derive_rois` (src/health_decoder/pipeline/roi.py); `h`, `w`
are the image dimensions `img_bgr.shape[:2]`. -/
def derive_rois (h w : ℤ) (face_box : Box) : ROIBoxes :=
  let fw := face_box.x2 - face_box.x1
  let fh := face_box.y2 - face_box.y1
  let eyes_box := clamp_box (face_box.x1 + itrunc (15 * fw) 100) (face_box.y1 + itrunc (20 * fh) 100)
                            (face_box.x1 + itrunc (85 * fw) 100) (face_box.y1 + itrunc (48 * fh) 100) w h
  let lips_box := clamp_box (face_box.x1 + itrunc (25 * fw) 100) (face_box.y1 + itrunc (62 * fh) 100)
                            (face_box.x1 + itrunc (75 * fw) 100) (face_box.y1 + itrunc (82 * fh) 100) w h
  let skin_box := clamp_box (face_box.x1 + itrunc (18 * fw) 100) (face_box.y1 + itrunc (48 * fh) 100)
                            (face_box.x1 + itrunc (82 * fw) 100) (face_box.y1 + itrunc (70 * fh) 100) w h
  { face := clamp_box face_box.x1 face_box.y1 face_box.x2 face_box.y2 w h
  , eyes := eyes_box
  , lips := lips_box
  , skin := skin_box }

/-- A box lies within the bounds of a `w × h` image and is not inverted. -/
def inBounds (w h : ℤ) (b : Box) : Prop :=
  0 ≤ b.x1 ∧ b.x1 ≤ b.x2 ∧ b.x2 ≤ w - 1 ∧
  0 ≤ b.y1 ∧ b.y1 ≤ b.y2 ∧ b.y2 ≤ h - 1

/-- A box has strictly positive area. -/
def posArea (b : Box) : Prop := b.x1 < b.x2 ∧ b.y1 < b.y2

lemma clamp_box_eq (x1 y1 x2 y2 w h : ℤ) :
    clamp_box x1 y1 x2 y2 w h =
      { x1 := max 0 (min x1 (w - 1))
      , y1 := max 0 (min y1 (h - 1))
      , x2 := if max 0 (min x2 (w - 1)) ≤ max 0 (min x1 (w - 1)) then
                min (w - 1) (max 0 (min x1 (w - 1)) + 1)
              else max 0 (min x2 (w - 1))
      , y2 := if max 0 (min y2 (h - 1)) ≤ max 0 (min y1 (h - 1)) then
                min (h - 1) (max 0 (min y1 (h - 1)) + 1)
              else max 0 (min y2 (h - 1)) } := rfl

lemma clamp_box_inBounds (x1 y1 x2 y2 w h : ℤ) (hw : 0 < w) (hh : 0 < h) :
    inBounds w h (clamp_box x1 y1 x2 y2 w h) := by
  rw [clamp_box_eq]
  unfold inBounds
  dsimp only
  split_ifs <;> omega

lemma clamp_box_posArea (x1 y1 x2 y2 w h : ℤ)
    (hx : x1 < w - 1) (hy : y1 < h - 1) (hw : 1 < w) (hh : 1 < h) :
    posArea (clamp_box x1 y1 x2 y2 w h) := by
  rw [clamp_box_eq]
  unfold posArea
  dsimp only
  split_ifs <;> omega

lemma itrunc_lt_of_lt (a c : ℤ) (ha : 0 ≤ a) (hac : a < 100 * c) :
    itrunc a 100 < c := by
  unfold itrunc
  split_ifs with hneg
  · omega
  · omega

/-- C7 (amended): for any image of positive dimensions and any face box,
every box returned by `derive_rois` lies within the image bounds and is not
inverted (`x1 ≤ x2`, `y1 ≤ y2`); and whenever the face box lies fully inside
the image bounds with strictly positive area, all four returned boxes have
strictly positive area.  (A face box whose left or top edge reaches the last
image column or row — i.e. one lying partially outside the image — can yield
a zero-area box, see the counterexample.) -/
theorem c7_rois_bounds_and_area (w h : ℤ) (fb : Box) (hw : 0 < w) (hh : 0 < h) :
    (inBounds w h (derive_rois h w fb).face ∧
     inBounds w h (derive_rois h w fb).eyes ∧
     inBounds w h (derive_rois h w fb).lips ∧
     inBounds w h (derive_rois h w fb).skin) ∧
    (0 ≤ fb.x1 → fb.x1 < fb.x2 → fb.x2 ≤ w - 1 →
     0 ≤ fb.y1 → fb.y1 < fb.y2 → fb.y2 ≤ h - 1 →
      posArea (derive_rois h w fb).face ∧
      posArea (derive_rois h w fb).eyes ∧
      posArea (derive_rois h w fb).lips ∧
      posArea (derive_rois h w fb).skin) := by
  constructor
  · exact ⟨clamp_box_inBounds _ _ _ _ _ _ hw hh,
      clamp_box_inBounds _ _ _ _ _ _ hw hh,
      clamp_box_inBounds _ _ _ _ _ _ hw hh,
      clamp_box_inBounds _ _ _ _ _ _ hw hh⟩
  · intro hx1 hx12 hx2 hy1 hy12 hy2
    have hfw : 0 < fb.x2 - fb.x1 := by omega
    have hfh : 0 < fb.y2 - fb.y1 := by omega
    have hw1 : 1 < w := by omega
    have hh1 : 1 < h := by omega
    have t15 := itrunc_lt_of_lt (15 * (fb.x2 - fb.x1)) (fb.x2 - fb.x1) (by omega) (by omega)
    have t25 := itrunc_lt_of_lt (25 * (fb.x2 - fb.x1)) (fb.x2 - fb.x1) (by omega) (by omega)
    have t18 := itrunc_lt_of_lt (18 * (fb.x2 - fb.x1)) (fb.x2 - fb.x1) (by omega) (by omega)
    have t20 := itrunc_lt_of_lt (20 * (fb.y2 - fb.y1)) (fb.y2 - fb.y1) (by omega) (by omega)
    have t62 := itrunc_lt_of_lt (62 * (fb.y2 - fb.y1)) (fb.y2 - fb.y1) (by omega) (by omega)
    have t48 := itrunc_lt_of_lt (48 * (fb.y2 - fb.y1)) (fb.y2 - fb.y1) (by omega) (by omega)
    refine ⟨clamp_box_posArea _ _ _ _ _ _ (by omega) (by omega) hw1 hh1,
      clamp_box_posArea _ _ _ _ _ _ (by omega) (by omega) hw1 hh1,
      clamp_box_posArea _ _ _ _ _ _ (by omega) (by omega) hw1 hh1,
      clamp_box_posArea _ _ _ _ _ _ (by omega) (by omega) hw1 hh1⟩

theorem c7_rois_bounds_and_area_witness :
    ((inBounds 100 100 (derive_rois 100 100 ⟨10, 20, 60, 80⟩).face ∧
      inBounds 100 100 (derive_rois 100 100 ⟨10, 20, 60, 80⟩).eyes ∧
      inBounds 100 100 (derive_rois 100 100 ⟨10, 20, 60, 80⟩).lips ∧
      inBounds 100 100 (derive_rois 100 100 ⟨10, 20, 60, 80⟩).skin) ∧
     ((0:ℤ) ≤ 10 → (10:ℤ) < 60 → (60:ℤ) ≤ 100 - 1 →
      (0:ℤ) ≤ 20 → (20:ℤ) < 80 → (80:ℤ) ≤ 100 - 1 →
      posArea (derive_rois 100 100 ⟨10, 20, 60, 80⟩).face ∧
      posArea (derive_rois 100 100 ⟨10, 20, 60, 80⟩).eyes ∧
      posArea (derive_rois 100 100 ⟨10, 20, 60, 80⟩).lips ∧
      posArea (derive_rois 100 100 ⟨10, 20, 60, 80⟩).skin)) :=
  c7_rois_bounds_and_area 100 100 ⟨10, 20, 60, 80⟩ (by decide) (by decide)

/-- C7 counterexample: a face box lying partially outside a 100×100 image
(its left edge on the last column) makes `derive_rois` return a zero-width
face box, refuting the never-degenerate claim. -/
theorem c7_counterexample :
    (derive_rois 100 100 ⟨99, 0, 150, 50⟩).face = ⟨99, 0, 99, 50⟩ ∧
    ¬ (derive_rois 100 100 ⟨99, 0, 150, 50⟩).face.x1 <
      (derive_rois 100 100 ⟨99, 0, 150, 50⟩).face.x2 := by
  decide

def darkNote : String := "Too dark (low lighting)."
def blurNote : String := "Blurry image (low sharpness)."
def acceptableNote : String := "Capture quality looks acceptable."

/-- Embedding of `QualityResult` from src/health_decoder/domain/models.py. -/
structure QualityResult where
  brightness_mean : ℚ
  blur_laplacian_var : ℚ
  notes : List String
deriving Repr, DecidableEq

/-- Embedding of `compute_quality` (src/health_decoder/pipeline/quality.py).
The OpenCV grayscale conversion, its mean, and the Laplacian variance are
external library computations, abstracted as the inputs `brightness` and
`lap_var`; the note policy is translated verbatim. -/
def compute_quality (brightness lap_var : ℚ) : QualityResult :=
  let notes :=
    (if brightness < 55 then [darkNote] else []) ++
    (if lap_var < 45 then [blurNote] else [])
  { brightness_mean := brightness
  , blur_laplacian_var := lap_var
  , notes := if notes = [] then [acceptableNote] else notes }

/-- C8: the quality notes contain the too-dark note exactly when
`brightness < 55`, the blurry note exactly when `blur_variance < 45`, both
together when both thresholds trigger, and are exactly the single
acceptable note when neither triggers; the result always carries the two
metrics and the notes are never empty. -/
theorem c8_quality_notes (b v : ℚ) :
    (darkNote ∈ (compute_quality b v).notes ↔ b < 55) ∧
    (blurNote ∈ (compute_quality b v).notes ↔ v < 45) ∧
    ((compute_quality b v).notes = [darkNote, blurNote] ↔ (b < 55 ∧ v < 45)) ∧
    ((compute_quality b v).notes = [acceptableNote] ↔ (55 ≤ b ∧ 45 ≤ v)) ∧
    (compute_quality b v).notes ≠ [] ∧
    (compute_quality b v).brightness_mean = b ∧
    (compute_quality b v).blur_laplacian_var = v := by
  by_cases h1 : b < 55 <;> by_cases h2 : v < 45 <;>
    simp [compute_quality, h1, h2, darkNote, blurNote, acceptableNote, not_lt,
      le_of_not_lt]

theorem c8_quality_notes_witness :
    (darkNote ∈ (compute_quality 10 10).notes ↔ (10:ℚ) < 55) ∧
    (blurNote ∈ (compute_quality 10 10).notes ↔ (10:ℚ) < 45) ∧
    ((compute_quality 10 10).notes = [darkNote, blurNote] ↔
      ((10:ℚ) < 55 ∧ (10:ℚ) < 45)) ∧
    ((compute_quality 10 10).notes = [acceptableNote] ↔
      ((55:ℚ) ≤ 10 ∧ (45:ℚ) ≤ 10)) ∧
    (compute_quality 10 10).notes ≠ [] ∧
    (compute_quality 10 10).brightness_mean = 10 ∧
    (compute_quality 10 10).blur_laplacian_var = 10 :=
  c8_quality_notes 10 10

/-- A BGR colour triple, as passed to the OpenCV drawing calls. -/
abbrev Color := ℤ × ℤ × ℤ

/-- An in-memory image buffer: its dimensions and a pixel map (only
coordinates with `0 ≤ x < w`, `0 ≤ y < h` are meaningful; the drawing
models only ever change in-range pixels). -/
structure Image where
  h : ℤ
  w : ℤ
  pix : ℤ → ℤ → Color

/-- The pixels covered by a rectangle outline of thickness `t`. -/
def onBorder (b : Box) (t x y : ℤ) : Prop :=
  b.x1 ≤ x ∧ x ≤ b.x2 ∧ b.y1 ≤ y ∧ y ≤ b.y2 ∧
  (x < b.x1 + t ∨ b.x2 - t < x ∨ y < b.y1 + t ∨ b.y2 - t < y)

instance (b : Box) (t x y : ℤ) : Decidable (onBorder b t x y) := by
  unfold onBorder; infer_instance

/-- Model of `cv2.rectangle(out, (x1,y1), (x2,y2), color, 2)`: paints the
outline pixels of the rectangle in the given colour, clipped to the image
bounds; all other pixels and the dimensions are unchanged. -/
def cv2_rectangle (im : Image) (b : Box) (c : Color) (t : ℤ) : Image :=
  { im with pix := fun x y =>
      if 0 ≤ x ∧ x < im.w ∧ 0 ≤ y ∧ y < im.h ∧ onBorder b t x y then c
      else im.pix x y }

/-- A glyph raster: which offsets, relative to the text origin, a rendered
string covers.  OpenCV's font rendering is an external library detail, so the
model is parameterised by the raster and the theorems quantify over it. -/
def TextMask : Type := String → ℤ → ℤ → Bool

/-- Model of `cv2.putText(out, label, org, font, scale, color, thickness)`:
paints, in the given colour, the in-bounds pixels the glyph raster covers for
this string at this origin; all other pixels and the dimensions are
unchanged. -/
def cv2_putText (mask : TextMask) (im : Image) (s : String) (ox oy : ℤ)
    (c : Color) : Image :=
  { im with pix := fun x y =>
      if 0 ≤ x ∧ x < im.w ∧ 0 ≤ y ∧ y < im.h ∧ mask s (x - ox) (y - oy) = true
      then c else im.pix x y }

/-- The local helper `box(b, color, label)` inside `draw_overlay`
(src/health_decoder/pipeline/explain.py): rectangle of thickness 2, then the
label at `(x1, max(18, y1 - 6))` in the same colour. -/
def draw_labeled_box (mask : TextMask) (im : Image) (b : Box) (c : Color)
    (label : String) : Image :=
  cv2_putText mask (cv2_rectangle im b c 2) label b.x1 (max 18 (b.y1 - 6)) c

/-- The pure effect of `draw_overlay`'s annotation sequence on a buffer:
Face, Eyes, Lips, Skin boxes with their labels, in source order and
colours. -/
def annotate (mask : TextMask) (rois : ROIBoxes) (im : Image) : Image :=
  draw_labeled_box mask
    (draw_labeled_box mask
      (draw_labeled_box mask
        (draw_labeled_box mask im rois.face (0, 255, 255) "Face")
        rois.eyes (255, 0, 0) "Eyes")
      rois.lips (0, 0, 255) "Lips")
    rois.skin (0, 255, 0) "Skin"

/-- Embedding of `draw_overlay` (src/health_decoder/pipeline/explain.py) at
the buffer level.  numpy arrays live in a store of buffers indexed by `ℕ`
with allocation counter `n`; the argument `img_bgr` is the buffer at index
`i`.  `out = img_bgr.copy()` allocates a fresh buffer `j = n` with the same
contents, and each `cv2.rectangle` / `cv2.putText` call mutates buffer `j`
in place, in source order.  Returns the new store, the new counter, and the
index of the returned array. -/
def draw_overlay (mask : TextMask) (store : ℕ → Image) (n i : ℕ)
    (rois : ROIBoxes) : (ℕ → Image) × ℕ × ℕ :=
  let j := n
  let store := Function.update store j (store i)
  let store := Function.update store j
    (cv2_rectangle (store j) rois.face (0, 255, 255) 2)
  let store := Function.update store j
    (cv2_putText mask (store j) "Face" rois.face.x1 (max 18 (rois.face.y1 - 6)) (0, 255, 255))
  let store := Function.update store j
    (cv2_rectangle (store j) rois.eyes (255, 0, 0) 2)
  let store := Function.update store j
    (cv2_putText mask (store j) "Eyes" rois.eyes.x1 (max 18 (rois.eyes.y1 - 6)) (255, 0, 0))
  let store := Function.update store j
    (cv2_rectangle (store j) rois.lips (0, 0, 255) 2)
  let store := Function.update store j
    (cv2_putText mask (store j) "Lips" rois.lips.x1 (max 18 (rois.lips.y1 - 6)) (0, 0, 255))
  let store := Function.update store j
    (cv2_rectangle (store j) rois.skin (0, 255, 0) 2)
  let store := Function.update store j
    (cv2_putText mask (store j) "Skin" rois.skin.x1 (max 18 (rois.skin.y1 - 6)) (0, 255, 0))
  (store, n + 1, j)

lemma draw_overlay_at_result (mask : TextMask) (store : ℕ → Image) (n i : ℕ)
    (rois : ROIBoxes) :
    (draw_overlay mask store n i rois).1 n = annotate mask rois (store i) := by
  simp [draw_overlay, annotate, draw_labeled_box, Function.update_same]

lemma draw_overlay_untouched (mask : TextMask) (store : ℕ → Image) (n i : ℕ)
    (rois : ROIBoxes) (h : i ≠ n) :
    (draw_overlay mask store n i rois).1 i = store i := by
  simp [draw_overlay, Function.update_noteq h]

/-- The set of pixels the eight annotation calls may paint. -/
def annotationCovers (mask : TextMask) (rois : ROIBoxes) (x y : ℤ) : Prop :=
  onBorder rois.face 2 x y ∨
  mask "Face" (x - rois.face.x1) (y - max 18 (rois.face.y1 - 6)) = true ∨
  onBorder rois.eyes 2 x y ∨
  mask "Eyes" (x - rois.eyes.x1) (y - max 18 (rois.eyes.y1 - 6)) = true ∨
  onBorder rois.lips 2 x y ∨
  mask "Lips" (x - rois.lips.x1) (y - max 18 (rois.lips.y1 - 6)) = true ∨
  onBorder rois.skin 2 x y ∨
  mask "Skin" (x - rois.skin.x1) (y - max 18 (rois.skin.y1 - 6)) = true

lemma annotate_pix_of_not_covered (mask : TextMask) (rois : ROIBoxes)
    (im : Image) (x y : ℤ) (h : ¬ annotationCovers mask rois x y) :
    (annotate mask rois im).pix x y = im.pix x y := by
  unfold annotationCovers at h
  push_neg at h
  obtain ⟨h1, h2, h3, h4, h5, h6, h7, h8⟩ := h
  simp [annotate, draw_labeled_box, cv2_rectangle, cv2_putText,
    h1, h2, h3, h4, h5, h6, h7, h8]

lemma annotate_pix_skin_border (mask : TextMask) (rois : ROIBoxes)
    (im : Image) (x y : ℤ)
    (hx0 : 0 ≤ x) (hxw : x < im.w) (hy0 : 0 ≤ y) (hyh : y < im.h)
    (hb : onBorder rois.skin 2 x y) :
    (annotate mask rois im).pix x y = (0, 255, 0) := by
  by_cases hm : mask "Skin" (x - rois.skin.x1) (y - max 18 (rois.skin.y1 - 6)) = true <;>
    simp [annotate, draw_labeled_box, cv2_rectangle, cv2_putText,
      hx0, hxw, hy0, hyh, hb, hm]

/-- C10: for any valid buffer index, `draw_overlay` leaves the input buffer
unchanged (annotation happens only on the freshly allocated copy), returns a
fresh buffer of the same dimensions as the input, every pixel outside the
eight annotation regions equals the input's pixel (the output is a copy),
and the in-bounds pixels on the skin rectangle's outline carry that
rectangle's colour (the rectangles really are drawn). -/
theorem c10_overlay_copy (mask : TextMask) (store : ℕ → Image) (n i : ℕ)
    (rois : ROIBoxes) (hi : i < n) :
    (draw_overlay mask store n i rois).1 i = store i ∧
    (draw_overlay mask store n i rois).2.2 ≠ i ∧
    (draw_overlay mask store n i rois).2.2 < (draw_overlay mask store n i rois).2.1 ∧
    ((draw_overlay mask store n i rois).1 (draw_overlay mask store n i rois).2.2).h
      = (store i).h ∧
    ((draw_overlay mask store n i rois).1 (draw_overlay mask store n i rois).2.2).w
      = (store i).w ∧
    (∀ x y, ¬ annotationCovers mask rois x y →
      ((draw_overlay mask store n i rois).1 (draw_overlay mask store n i rois).2.2).pix x y
        = (store i).pix x y) ∧
    (∀ x y, 0 ≤ x → x < (store i).w → 0 ≤ y → y < (store i).h →
      onBorder rois.skin 2 x y →
      ((draw_overlay mask store n i rois).1 (draw_overlay mask store n i rois).2.2).pix x y
        = (0, 255, 0)) := by
  have hne : i ≠ n := Nat.ne_of_lt hi
  have hres : (draw_overlay mask store n i rois).2.2 = n := rfl
  have hcnt : (draw_overlay mask store n i rois).2.1 = n + 1 := rfl
  have hstore : (draw_overlay mask store n i rois).1 n = annotate mask rois (store i) :=
    draw_overlay_at_result mask store n i rois
  rw [hres, hcnt, hstore]
  refine ⟨draw_overlay_untouched mask store n i rois hne, fun hc => hne hc.symm,
    Nat.lt_succ_self n, rfl, rfl, ?_, ?_⟩
  · intro x y hc
    exact annotate_pix_of_not_covered mask rois (store i) x y hc
  · intro x y hx0 hxw hy0 hyh hb
    exact annotate_pix_skin_border mask rois (store i) x y hx0 hxw hy0 hyh hb

/-- A trivial glyph raster, a tiny buffer, a one-buffer store, and a small
region set, used to instantiate the theorems at concrete inputs. -/
def mask0 : TextMask := fun _ _ _ => false
def img2 : Image := { h := 2, w := 2, pix := fun _ _ => (0, 0, 0) }
def store0 : ℕ → Image := fun _ => img2
def rois0 : ROIBoxes :=
  { face := ⟨0, 0, 1, 1⟩, eyes := ⟨0, 0, 1, 1⟩
  , lips := ⟨0, 0, 1, 1⟩, skin := ⟨0, 0, 1, 1⟩ }

theorem c10_overlay_copy_witness :
    (draw_overlay mask0 store0 1 0 rois0).1 0 = store0 0 ∧
    (draw_overlay mask0 store0 1 0 rois0).2.2 ≠ 0 ∧
    (draw_overlay mask0 store0 1 0 rois0).2.2 < (draw_overlay mask0 store0 1 0 rois0).2.1 ∧
    ((draw_overlay mask0 store0 1 0 rois0).1 (draw_overlay mask0 store0 1 0 rois0).2.2).h
      = (store0 0).h ∧
    ((draw_overlay mask0 store0 1 0 rois0).1 (draw_overlay mask0 store0 1 0 rois0).2.2).w
      = (store0 0).w ∧
    (∀ x y, ¬ annotationCovers mask0 rois0 x y →
      ((draw_overlay mask0 store0 1 0 rois0).1 (draw_overlay mask0 store0 1 0 rois0).2.2).pix x y
        = (store0 0).pix x y) ∧
    (∀ x y, 0 ≤ x → x < (store0 0).w → 0 ≤ y → y < (store0 0).h →
      onBorder rois0.skin 2 x y →
      ((draw_overlay mask0 store0 1 0 rois0).1 (draw_overlay mask0 store0 1 0 rois0).2.2).pix x y
        = (0, 255, 0)) :=
  c10_overlay_copy mask0 store0 1 0 rois0 (by decide)

/-- Embedding of `ScoreResult` from src/health_decoder/domain/models.py. -/
structure ScoreResult where
  score : ℤ
  category : String
  confidence : String
  reasons : List String
  risk_components : RiskComponents

/-- Embedding of `ExplainResult` from src/health_decoder/domain/models.py: the
annotated overlay image. -/
structure ExplainResult where
  overlay_bgr : Image

/-- Embedding of `AnalysisResult` from src/health_decoder/domain/models.py;
`score` and `explain` default to `None`. -/
structure AnalysisResult where
  ok : Bool
  message : String
  quality : QualityResult
  score : Option ScoreResult := none
  explain : Option ExplainResult := none

/-- Model of the input `img_bgr` array together with the OpenCV-computed
statistics `analyze_image` consumes: `brightness` / `blurVar` are the
grayscale mean and Laplacian variance used by `compute_quality`; for a box
`b`, `grayMean b` / `grayStd b` are the numpy mean and standard deviation of
the grayscale crop `gray[y1:y2, x1:x2]`.  The external statistics are model
inputs, quantified universally in the theorems. -/
structure ImageModel where
  h : ℤ
  w : ℤ
  pix : ℤ → ℤ → Color
  brightness : ℚ
  blurVar : ℚ
  grayMean : Box → ℚ
  grayStd : Box → ℚ

def blurMessage : String :=
  "Image is too blurry for reliable analysis. Please hold the camera steady."
def noFaceMessage : String :=
  "No full face detected. Please ensure your eyes, nose, and mouth are fully visible."
def okMessage : String := "OK"
def fallbackFaceReason : String :=
  "Analysis is based on a partial face. Results may be less reliable."

/-- The successful tail of `analyze_image`
(src/health_decoder/pipeline/pipeline.py), from `rois = derive_rois(...)`
on: derive the ROIs, compute the risks from the grayscale crops, score,
append the partial-face caveat when the fallback box was used, render the
overlay on a copy of the input, and return the `ok=True` result. -/
def analyze_with_face (mask : TextMask) (img : ImageModel)
    (quality : QualityResult) (face_box : Box) (fallback_face : Bool) :
    AnalysisResult :=
  let rois := derive_rois img.h img.w face_box
  let risk := risk_from_rois
    (img.grayMean rois.eyes) (img.grayStd rois.eyes)
    (img.grayMean rois.lips) (img.grayStd rois.lips)
    (img.grayMean rois.skin) (img.grayStd rois.skin)
  let ws := wellness_score risk
  let reasons := if fallback_face then ws.2.2.2 ++ [fallbackFaceReason] else ws.2.2.2
  let overlay := annotate mask rois { h := img.h, w := img.w, pix := img.pix }
  { ok := true
  , message := okMessage
  , quality := quality
  , score := some (ScoreResult.mk ws.1 ws.2.1 ws.2.2.1 reasons risk)
  , explain := some { overlay_bgr := overlay } }

/-- Embedding of `analyze_image` (src/health_decoder/pipeline/pipeline.py).
`face_detect` is the answer of `vision.detect_face(img_bgr)`: the
FaceLocator is an external capability behind `VisionService`, so its result
is a parameter of the model ("every FaceLocator behaviour").  `mask` is the
glyph raster of the overlay's label font. -/
def analyze_image (mask : TextMask) (face_detect : Option Box)
    (img : ImageModel) : AnalysisResult :=
  if (compute_quality img.brightness img.blurVar).blur_laplacian_var < 25 then
    { ok := false
    , message := blurMessage
    , quality := compute_quality img.brightness img.blurVar }
  else
    match face_detect with
    | some fb => analyze_with_face mask img (compute_quality img.brightness img.blurVar) fb false
    | none =>
      if 200 < img.h ∧ 200 < img.w then
        analyze_with_face mask img (compute_quality img.brightness img.blurVar)
          ⟨itrunc (25 * img.w) 100, itrunc (15 * img.h) 100,
           itrunc (75 * img.w) 100, itrunc (85 * img.h) 100⟩ true
      else
        { ok := false
        , message := noFaceMessage
        , quality := compute_quality img.brightness img.blurVar }

/-- C1: any image whose blur variance is strictly below 25 is hard-stopped:
`analyze_image` returns `ok=false` with the blur message, `score=none`,
`explain=none`, and the computed QualityResult still populated, regardless
of the FaceLocator's answer. -/
theorem c1_blur_hard_stop (mask : TextMask) (fd : Option Box)
    (img : ImageModel) (hblur : img.blurVar < 25) :
    analyze_image mask fd img =
      { ok := false
      , message := blurMessage
      , quality := compute_quality img.brightness img.blurVar
      , score := none
      , explain := none } := by
  have hq : (compute_quality img.brightness img.blurVar).blur_laplacian_var
      = img.blurVar := rfl
  unfold analyze_image
  rw [if_pos (by rw [hq]; exact hblur)]

/-- Concrete image models used to instantiate the pipeline theorems: a very
blurry capture, a 200×200 capture, and a 301×301 capture. -/
def imgBlurry : ImageModel :=
  { h := 300, w := 300, pix := fun _ _ => (0, 0, 0)
  , brightness := 128, blurVar := 10, grayMean := fun _ => 0, grayStd := fun _ => 0 }
def img200 : ImageModel :=
  { h := 200, w := 200, pix := fun _ _ => (0, 0, 0)
  , brightness := 128, blurVar := 100, grayMean := fun _ => 0, grayStd := fun _ => 0 }
def img301 : ImageModel :=
  { h := 301, w := 301, pix := fun _ _ => (0, 0, 0)
  , brightness := 128, blurVar := 100, grayMean := fun _ => 0, grayStd := fun _ => 0 }

theorem c1_blur_hard_stop_witness :
    analyze_image mask0 none imgBlurry =
      { ok := false
      , message := blurMessage
      , quality := compute_quality imgBlurry.brightness imgBlurry.blurVar
      , score := none
      , explain := none } :=
  c1_blur_hard_stop mask0 none imgBlurry (by norm_num [imgBlurry])

lemma analyze_with_face_fallback_reason (mask : TextMask) (img : ImageModel)
    (quality : QualityResult) (fb : Box) :
    ∃ s, (analyze_with_face mask img quality fb true).score = some s ∧
      fallbackFaceReason ∈ s.reasons := by
  refine ⟨_, rfl, ?_⟩
  simp

/-- C2 (amended): for any image with `blur_variance ≥ 25` on which the
FaceLocator returns no box, if the image is strictly larger than 200 pixels
in both dimensions then `analyze_image` synthesizes the fallback face box
`(int(0.25*w), int(0.15*h), int(0.75*w), int(0.85*h))`, proceeds with it,
and returns `ok=true` with a reason flagging partial-face analysis;
otherwise it returns `ok=false` with the no-face message and `score=none`.
(The source condition is `h > 200 and w > 200`, so an exactly-200×200 image
fails — see the counterexample.) -/
theorem c2_noface_fallback (mask : TextMask) (img : ImageModel)
    (hblur : 25 ≤ img.blurVar) :
    (200 < img.h ∧ 200 < img.w →
      (analyze_image mask none img).ok = true ∧
      analyze_image mask none img =
        analyze_with_face mask img (compute_quality img.brightness img.blurVar)
          ⟨itrunc (25 * img.w) 100, itrunc (15 * img.h) 100,
           itrunc (75 * img.w) 100, itrunc (85 * img.h) 100⟩ true ∧
      ∃ s, (analyze_image mask none img).score = some s ∧
        fallbackFaceReason ∈ s.reasons) ∧
    (¬ (200 < img.h ∧ 200 < img.w) →
      analyze_image mask none img =
        { ok := false
        , message := noFaceMessage
        , quality := compute_quality img.brightness img.blurVar
        , score := none
        , explain := none }) := by
  have hnot : ¬ (compute_quality img.brightness img.blurVar).blur_laplacian_var < 25 := by
    show ¬ img.blurVar < 25
    exact not_lt.mpr hblur
  have hstep : analyze_image mask none img =
      (if 200 < img.h ∧ 200 < img.w then
        analyze_with_face mask img (compute_quality img.brightness img.blurVar)
          ⟨itrunc (25 * img.w) 100, itrunc (15 * img.h) 100,
           itrunc (75 * img.w) 100, itrunc (85 * img.h) 100⟩ true
      else
        { ok := false
        , message := noFaceMessage
        , quality := compute_quality img.brightness img.blurVar }) := by
    unfold analyze_image
    rw [if_neg hnot]
  constructor
  · intro hsize
    rw [hstep, if_pos hsize]
    exact ⟨rfl, rfl, analyze_with_face_fallback_reason mask img
      (compute_quality img.brightness img.blurVar) _⟩
  · intro hsize
    rw [hstep, if_neg hsize]

theorem c2_noface_fallback_witness :
    (200 < img301.h ∧ 200 < img301.w →
      (analyze_image mask0 none img301).ok = true ∧
      analyze_image mask0 none img301 =
        analyze_with_face mask0 img301 (compute_quality img301.brightness img301.blurVar)
          ⟨itrunc (25 * img301.w) 100, itrunc (15 * img301.h) 100,
           itrunc (75 * img301.w) 100, itrunc (85 * img301.h) 100⟩ true ∧
      ∃ s, (analyze_image mask0 none img301).score = some s ∧
        fallbackFaceReason ∈ s.reasons) ∧
    (¬ (200 < img301.h ∧ 200 < img301.w) →
      analyze_image mask0 none img301 =
        { ok := false
        , message := noFaceMessage
        , quality := compute_quality img301.brightness img301.blurVar
        , score := none
        , explain := none }) :=
  c2_noface_fallback mask0 img301 (by norm_num [img301])

/-- C2 counterexample: an image of exactly 200×200 pixels ("at least
200×200") with `blur_variance = 100 ≥ 25` and no detected face is rejected
with the no-face message — the source requires `h > 200 and w > 200`, so the
claim's "at least 200×200" boundary is wrong. -/
theorem c2_counterexample :
    (200:ℤ) ≤ img200.h ∧ (200:ℤ) ≤ img200.w ∧ (25:ℚ) ≤ img200.blurVar ∧
    (analyze_image mask0 none img200).ok = false ∧
    (analyze_image mask0 none img200).message = noFaceMessage ∧
    (analyze_image mask0 none img200).score = none := by
  have hq : (compute_quality img200.brightness img200.blurVar).blur_laplacian_var
      = img200.blurVar := rfl
  have h : analyze_image mask0 none img200 =
      { ok := false
      , message := noFaceMessage
      , quality := compute_quality img200.brightness img200.blurVar } := by
    unfold analyze_image
    rw [if_neg (by rw [hq]; norm_num [img200])]
    dsimp only
    rw [if_neg (by norm_num [img200])]
  refine ⟨by norm_num [img200], by norm_num [img200], by norm_num [img200],
    by rw [h], by rw [h], by rw [h]⟩

/-- C9: for every input image and every FaceLocator behaviour, the
`AnalysisResult` has `score` and `explain` present exactly when `ok` is
true, and the QualityResult is populated on every path, including both
failure exits. -/
theorem c9_result_shape (mask : TextMask) (fd : Option Box) (img : ImageModel) :
    ((analyze_image mask fd img).score.isSome = (analyze_image mask fd img).ok) ∧
    ((analyze_image mask fd img).explain.isSome = (analyze_image mask fd img).ok) ∧
    (analyze_image mask fd img).quality = compute_quality img.brightness img.blurVar := by
  unfold analyze_image
  by_cases h1 : (compute_quality img.brightness img.blurVar).blur_laplacian_var < 25
  · rw [if_pos h1]; exact ⟨rfl, rfl, rfl⟩
  · rw [if_neg h1]
    cases fd with
    | some fb => exact ⟨rfl, rfl, rfl⟩
    | none =>
      dsimp only
      by_cases h2 : 200 < img.h ∧ 200 < img.w
      · rw [if_pos h2]; exact ⟨rfl, rfl, rfl⟩
      · rw [if_neg h2]; exact ⟨rfl, rfl, rfl⟩
